import Mathlib

/-!
Verification of the blockchain integration layer of the kairos repository
(`backend/blockchain.py` and the `get_user_tickets` endpoint of
`backend/blockchain_api.py`).

The Python code is shallowly embedded: every external interaction (RPC calls,
environment variables, file reads, database queries) is supplied as an explicit
outcome value (`Except PyErr _` models a Python call that either returns or
raises), and each method of `BlockchainService` becomes a pure Lean function of
the service state and those outcomes.  `is_connected` is re-evaluated on
demand in the source, so methods that probe liveness more than once receive one
probe outcome per call instant.
-/

namespace Kairos

/-- Python exception values, as coarse-grained as the embedded code needs:
the code only branches on liveness, never on the exception class, so each
constructor just records which kind of Python exception was raised.
`timeout` models web3's TimeExhausted ("simple timeout" of receipt polling). -/
inductive PyErr where
  | exception (msg : String)
  | valueError (msg : String)
  | attributeError (msg : String)
  | fileNotFound (path : String)
  | timeout
  | other (msg : String)
deriving DecidableEq, Repr

/-- The string produced by Python `str(e)` on the embedded exception. -/
def PyErr.message : PyErr → String
  | .exception m => m
  | .valueError m => m
  | .attributeError m => m
  | .fileNotFound p => p
  | .timeout => "timeout"
  | .other m => m

/-- Outcome of a Python expression: a value, or a raised exception. -/
abbrev PyResult (α : Type) := Except PyErr α

/-- Python scalar values appearing in the dicts the service returns. -/
inductive PyVal where
  | str (s : String)
  | int (n : Int)
  | bool (b : Bool)
  | none
deriving DecidableEq, Repr

/-- A Python dict with string keys (insertion-ordered association list;
all dicts built by the embedded code have pairwise distinct keys). -/
abbrev PyDict := List (String × PyVal)

/-- Python `d.get(k)` / `k in d` lookup on an association list. -/
def dict_get {α : Type} (d : List (String × α)) (k : String) : Option α :=
  match d with
  | [] => Option.none
  | (k', v) :: rest => if k' = k then some v else dict_get rest k

/-- Python truthiness of an optional string (`None` and `''` are falsy). -/
def truthy : Option String → Bool
  | Option.none => false
  | some s => s ≠ ""

/-- One entry of `BlockchainService.NETWORKS` (`blockchain.py` lines 14-55).
`block_explorer` and `opensea` are `None` for the local network. -/
structure NetworkConfig where
  name : String
  chain_id : Nat
  rpc_url : String
  block_explorer : Option String
  opensea : Option String
  native_currency : String
deriving DecidableEq, Repr

/-- `BlockchainService.NETWORKS`: the static supported-network table. -/
def NETWORKS : List (String × NetworkConfig) :=
  [("mainnet",
    { name := "Ethereum Mainnet", chain_id := 1,
      rpc_url := "https://mainnet.infura.io/v3/YOUR_INFURA_KEY",
      block_explorer := some "https://etherscan.io",
      opensea := some "https://opensea.io", native_currency := "ETH" }),
   ("polygon",
    { name := "Polygon Mainnet", chain_id := 137,
      rpc_url := "https://polygon-rpc.com",
      block_explorer := some "https://polygonscan.com",
      opensea := some "https://opensea.io", native_currency := "MATIC" }),
   ("mumbai",
    { name := "Polygon Mumbai Testnet", chain_id := 80001,
      rpc_url := "https://rpc-mumbai.maticvigil.com",
      block_explorer := some "https://mumbai.polygonscan.com",
      opensea := some "https://testnets.opensea.io", native_currency := "MATIC" }),
   ("sepolia",
    { name := "Ethereum Sepolia Testnet", chain_id := 11155111,
      rpc_url := "https://sepolia.infura.io/v3/YOUR_INFURA_KEY",
      block_explorer := some "https://sepolia.etherscan.io",
      opensea := some "https://testnets.opensea.io", native_currency := "ETH" }),
   ("localhost",
    { name := "Local Hardhat Network", chain_id := 1337,
      rpc_url := "http://127.0.0.1:8545",
      block_explorer := Option.none,
      opensea := Option.none, native_currency := "ETH" })]

/-- A loaded contract instance (`self.w3.eth.contract(...)`): its checksummed
address, its ABI, and the set of callable function names it exposes. -/
structure ContractHandle where
  address : String
  abi : List String
  functions : List String
deriving DecidableEq, Repr

/-- The mutable fields of a `BlockchainService` instance.  `w3 = true` models
`self.w3 is not None`; the behaviour of the underlying client is supplied
per call through world records. -/
structure ServiceState where
  w3 : Bool
  contracts : List (String × ContractHandle)
  account : Option String
  chain_id : Option Nat
  current_network : Option String
deriving DecidableEq, Repr

/-- The process environment: `os.getenv` (absent variables give `None`). -/
structure Env where
  getenv : String → Option String

/-- Outcomes of the external calls made by `_initialize_web3`:
the `self.w3.client_version` probe, the `self.w3.eth.chain_id` fetch, and
`Account.from_key` (which yields the signer's address or raises). -/
structure InitWorld where
  client_version : PyResult String
  eth_chain_id : PyResult Nat
  from_key : PyResult String

/-- The infura URL templates of `_initialize_web3` (lines 86-91). -/
def network_urls (infura_key : String) : List (String × String) :=
  [("mainnet", "https://mainnet.infura.io/v3/" ++ infura_key),
   ("sepolia", "https://sepolia.infura.io/v3/" ++ infura_key),
   ("polygon", "https://polygon-mainnet.infura.io/v3/" ++ infura_key),
   ("mumbai", "https://polygon-mumbai.infura.io/v3/" ++ infura_key)]

/-- The state written by the outer exception handler of `_initialize_web3`
(lines 130-134): `self.w3 = None; self.chain_id = None; self.account = None`;
`self.current_network` keeps the value assigned at line 77. -/
def init_failure_state (network : String) : ServiceState :=
  { w3 := false, contracts := [], account := Option.none,
    chain_id := Option.none, current_network := some network }

/-- `BlockchainService._initialize_web3` (lines 66-134).  The RPC URL is
resolved from the override variable, the infura template, or the network
default; the liveness probe failure path sets `w3`/`chain_id` to `None`
(lines 113-116); a missing private key leaves `account = None` (lines
119-124).  Note line 98 reads the local `infura_key`, which is only bound
when `BLOCKCHAIN_RPC_URL` was falsy: a truthy override therefore raises
`NameError` at line 98, caught by the outer handler of lines 130-134. -/
def initialize_web3 (env : Env) (w : InitWorld) : ServiceState :=
  let network := (env.getenv "BLOCKCHAIN_NETWORK").getD "localhost"
  let rpc0 := env.getenv "BLOCKCHAIN_RPC_URL"
  if truthy rpc0 then
    init_failure_state network
  else
    let infura_key := env.getenv "INFURA_PROJECT_ID"
    let rpc1 : Option String :=
      if truthy infura_key then dict_get (network_urls (infura_key.getD "")) network
      else Option.none
    let _rpc_url : String :=
      match rpc1 with
      | some u => u
      | Option.none => ((dict_get NETWORKS network).map (fun c => c.rpc_url)).getD "http://127.0.0.1:8545"
    let probed : Bool × Option Nat :=
      match w.client_version with
      | .error _ => (false, Option.none)
      | .ok _ =>
        match w.eth_chain_id with
        | .error _ => (false, Option.none)
        | .ok cid => (true, some cid)
    match env.getenv "BLOCKCHAIN_PRIVATE_KEY" with
    | Option.none =>
      { w3 := probed.1, contracts := [], account := Option.none,
        chain_id := probed.2, current_network := some network }
    | some key =>
      if key = "" then
        { w3 := probed.1, contracts := [], account := Option.none,
          chain_id := probed.2, current_network := some network }
      else
        match w.from_key with
        | .error _ => init_failure_state network
        | .ok addr =>
          { w3 := probed.1, contracts := [], account := some addr,
            chain_id := probed.2, current_network := some network }

/-- `BlockchainService.is_connected` (lines 192-199), kept in `PyResult` form
to record that the body can never raise: `if not self.w3: return False`, then
the probe result with any exception converted to `False`.  `probe` is the
outcome of the `self.w3.is_connected()` call at this instant. -/
def is_connected_impl (st : ServiceState) (probe : PyResult Bool) : PyResult Bool :=
  if !st.w3 then .ok false
  else
    match probe with
    | .ok b => .ok b
    | .error _ => .ok false

/-- The boolean value `is_connected()` returns (it always returns). -/
def is_connected (st : ServiceState) (probe : PyResult Bool) : Bool :=
  if !st.w3 then false
  else
    match probe with
    | .ok b => b
    | .error _ => false

/-- Outcomes of the external calls of `get_account_balance`:
`self.w3.to_checksum_address(address)` and `self.w3.eth.get_balance(...)`
(the latter in wei). -/
structure BalanceWorld where
  to_checksum : PyResult String
  get_balance : PyResult Nat

/-- `self.w3.from_wei(wei, 'ether')`: division by 10^18, modelled in ℚ. -/
def from_wei (wei : Nat) : ℚ := (wei : ℚ) / (10 ^ 18 : ℚ)

/-- `BlockchainService.get_account_balance` (lines 201-208): the whole body is
wrapped in try/except returning `0.0` on any failure; when `self.w3` is
`None` the attribute access `self.w3.eth` raises, which is likewise caught. -/
def get_account_balance (st : ServiceState) (w : BalanceWorld) (_address : String) : ℚ :=
  let body : PyResult ℚ :=
    if !st.w3 then .error (.attributeError "NoneType object has no attribute eth")
    else do
      let _cs ← w.to_checksum
      let wei ← w.get_balance
      pure (from_wei wei)
  match body with
  | .ok v => v
  | .error _ => 0

/-- Outcomes of the external interactions of `_load_contracts`:
`probe` is the `is_connected` probe of line 139; `artifact` is, per contract
name, the combined artifact-file open and JSON parse (lines 157-159), giving
the ABI or a raised exception; `create` is, per contract name and configured
address, `self.w3.eth.contract(address=self.w3.to_checksum_address(...), ...)`
(lines 170-173). -/
structure LoadWorld where
  probe : PyResult Bool
  artifact : String → PyResult (List String)
  create : String → String → PyResult ContractHandle

/-- The fixed `contract_configs` table of `_load_contracts` (lines 148-152). -/
def contract_configs : List (String × String) :=
  [("EventContract", "EventContract.sol"),
   ("PaymentProcessor", "PaymentProcessor.sol"),
   ("TicketNFT", "TicketNFT.sol")]

/-- Python `str.upper()` on the ASCII contract names (`String.toUpper` of the
standard library does not reduce definitionally, so the character map is
applied to the underlying character list directly). -/
def str_upper (s : String) : String := ⟨s.data.map Char.toUpper⟩

/-- One iteration of the `_load_contracts` loop (lines 154-181): a failed
artifact read, a falsy address variable (`continue` at line 167), or a failed
contract construction each skip this contract (the inner handlers at lines
178-181 log and continue); a successful construction yields the handle. -/
def load_one (env : Env) (w : LoadWorld) (contract_name : String) : Option ContractHandle :=
  match w.artifact contract_name with
  | .error _ => Option.none
  | .ok _abi =>
    let addr := env.getenv (str_upper contract_name ++ "_ADDRESS")
    if truthy addr then
      match w.create contract_name (addr.getD "") with
      | .error _ => Option.none
      | .ok h => some h
    else Option.none

/-- `BlockchainService._load_contracts` (lines 136-184): returns immediately
when `is_connected()` is false (lines 139-141), otherwise inserts one mapping
entry per successfully loaded contract, in `contract_configs` order. -/
def load_contracts (st : ServiceState) (env : Env) (w : LoadWorld) : ServiceState :=
  if !(is_connected st w.probe) then st
  else
    { st with
      contracts :=
        contract_configs.foldl
          (fun acc nc =>
            match load_one env w nc.1 with
            | some h => acc ++ [(nc.1, h)]
            | Option.none => acc)
          st.contracts }

/-- `BlockchainService.__init__` (lines 57-64): fields are zero-initialised,
then `_initialize_web3` and `_load_contracts` run exactly once. -/
def service_init (env : Env) (iw : InitWorld) (lw : LoadWorld) : ServiceState :=
  load_contracts (initialize_web3 env iw) env lw

/-- `BlockchainService.get_contract` (lines 186-190): `ValueError` when the
name is absent from `self.contracts`, the stored handle otherwise. -/
def get_contract (st : ServiceState) (contract_name : String) : PyResult ContractHandle :=
  match dict_get st.contracts contract_name with
  | Option.none => .error (.valueError ("Contract " ++ contract_name ++ " not loaded"))
  | some c => .ok c

/-- `BlockchainService.estimate_gas` (lines 210-217): the outcome of
`self.w3.eth.estimate_gas(transaction)`, with any failure replaced by the
default 21000. -/
def estimate_gas (outcome : PyResult Nat) : Nat :=
  match outcome with
  | .ok g => g
  | .error _ => 21000

/-- The externally observable side effects of the transaction path, used to
state that nothing is fetched, signed or submitted on an early failure. -/
inductive NetEffect where
  | fetch_gas_price
  | fetch_nonce
  | build_transaction
  | run_estimate_gas
  | sign
  | send_raw
  | poll_receipt
deriving DecidableEq, Repr

/-- Outcomes of the external calls of `send_transaction`, in program order:
`self.w3.eth.gas_price`, `self.w3.eth.get_transaction_count(...)`,
`contract_function(*args).build_transaction(...)`, `self.w3.eth.estimate_gas`,
`self.account.sign_transaction`, `self.w3.eth.send_raw_transaction` (the
latter returning the transaction hash as hex). -/
structure SendWorld where
  gas_price : PyResult Nat
  nonce : PyResult Nat
  build : PyResult Unit
  estimate : PyResult Nat
  sign : PyResult Unit
  send_raw : PyResult String

/-- `BlockchainService.send_transaction` (lines 219-264), with the list of
performed network/signing effects.  `raise Exception(...)` at line 234 fires
before anything else when no account is configured; afterwards every failure
is logged and re-raised (lines 262-264).  `gas_override` models a `gas` entry
passed through `**kwargs`; gas estimation runs when that entry is absent or
falsy (lines 250-251). -/
def send_transaction (st : ServiceState) (w : SendWorld)
    (contract_name function_name : String) (gas_override : Option Nat) :
    PyResult String × List NetEffect :=
  if st.account = Option.none then
    (.error (.exception "No private key configured for transaction signing"), [])
  else
    match get_contract st contract_name with
    | .error e => (.error e, [])
    | .ok contract =>
      if function_name ∉ contract.functions then
        (.error (.attributeError function_name), [])
      else
        match w.gas_price with
        | .error e => (.error e, [.fetch_gas_price])
        | .ok _gp =>
          match w.nonce with
          | .error e => (.error e, [.fetch_gas_price, .fetch_nonce])
          | .ok _n =>
            match w.build with
            | .error e => (.error e, [.fetch_gas_price, .fetch_nonce, .build_transaction])
            | .ok _ =>
              let pre : List NetEffect := [.fetch_gas_price, .fetch_nonce, .build_transaction]
              let gassed : List NetEffect :=
                if gas_override = Option.none ∨ gas_override = some 0 then
                  pre ++ [.run_estimate_gas]
                else pre
              match w.sign with
              | .error e => (.error e, gassed ++ [.sign])
              | .ok _ =>
                match w.send_raw with
                | .error e => (.error e, gassed ++ [.sign, .send_raw])
                | .ok tx_hash => (.ok tx_hash, gassed ++ [.sign, .send_raw])

/-- `BlockchainService.call_function` (lines 266-284): contract lookup,
function attribute lookup, then the read-only `.call()` whose outcome is
supplied; every failure is logged and re-raised. -/
def call_function (st : ServiceState) (call_outcome : PyResult PyVal)
    (contract_name function_name : String) : PyResult PyVal :=
  match get_contract st contract_name with
  | .error e => .error e
  | .ok contract =>
    if function_name ∉ contract.functions then
      .error (.attributeError function_name)
    else call_outcome

/-- The zero address used by the offline dummy receipt (lines 306-307). -/
def zero_address : String := "0x0000000000000000000000000000000000000000"

/-- The dummy success receipt of `wait_for_transaction` (lines 301-308). -/
def dummy_success_receipt (tx_hash : String) : PyDict :=
  [("transactionHash", .str tx_hash),
   ("status", .int 1),
   ("blockNumber", .int 1),
   ("gasUsed", .int 21000),
   ("from", .str zero_address),
   ("to", .str zero_address)]

/-- The dummy failed receipt of `wait_for_transaction` (lines 319-325). -/
def dummy_failed_receipt (tx_hash : String) (e : PyErr) : PyDict :=
  [("transactionHash", .str tx_hash),
   ("status", .int 0),
   ("blockNumber", .int 0),
   ("gasUsed", .int 0),
   ("error", .str e.message)]

/-- Outcomes of the external calls of `wait_for_transaction`: the
`is_connected` probe at line 299, the combined `to_bytes` conversion and
`wait_for_transaction_receipt` poll of lines 310-314, and the `is_connected`
probe re-evaluated inside the handler at line 318. -/
structure WaitWorld where
  probe_try : PyResult Bool
  receipt : PyResult PyDict
  probe_handler : PyResult Bool

/-- `BlockchainService.wait_for_transaction` (lines 286-326), with its
polling effect: a non-live connection at entry short-circuits to the dummy
success receipt; a polling failure yields the dummy failed receipt when
`is_connected()` is false inside the handler, and re-raises otherwise. -/
def wait_for_transaction (st : ServiceState) (w : WaitWorld)
    (tx_hash : String) (_timeout : Nat) : PyResult PyDict × List NetEffect :=
  if !(is_connected st w.probe_try) then
    (.ok (dummy_success_receipt tx_hash), [])
  else
    match w.receipt with
    | .ok r => (.ok r, [.poll_receipt])
    | .error e =>
      if !(is_connected st w.probe_handler) then
        (.ok (dummy_failed_receipt tx_hash e), [.poll_receipt])
      else
        (.error e, [.poll_receipt])

/-- `BlockchainService._get_explorer_url` (lines 594-605): the network config
is fetched with default `\x7b\x7d`, `block_explorer` with default `''`; a falsy
explorer URL (absent network, or the local network's `None`) yields `None`,
otherwise the URL is built by string interpolation. -/
def get_explorer_url (current_network : Option String)
    (contract_address : String) (token_id : Option Nat) : Option String :=
  let explorer_url : Option String :=
    match current_network.bind (dict_get NETWORKS) with
    | Option.none => some ""
    | some cfg => cfg.block_explorer
  match explorer_url with
  | Option.none => Option.none
  | some s =>
    if s = "" then Option.none
    else
      match token_id with
      | some t => some (s ++ "/token/" ++ contract_address ++ "?a=" ++ toString t)
      | Option.none => some (s ++ "/address/" ++ contract_address)

/-- The explorer base URL of the active profile: `None` when the network name
is unknown, when no network is set, or when the profile's `block_explorer`
entry is `None` (the local network). -/
def explorer_base (current_network : Option String) : Option String :=
  (current_network.bind (dict_get NETWORKS)).bind (fun cfg => cfg.block_explorer)

/-- `BlockchainService._get_transaction_explorer_url` (lines 607-615). -/
def get_transaction_explorer_url (current_network : Option String)
    (tx_hash : String) : Option String :=
  let explorer_url : Option String :=
    match current_network.bind (dict_get NETWORKS) with
    | Option.none => some ""
    | some cfg => cfg.block_explorer
  match explorer_url with
  | Option.none => Option.none
  | some s =>
    if s = "" then Option.none
    else some (s ++ "/tx/" ++ tx_hash)

/-! SHA-256 (`hashlib.sha256(...).hexdigest()`), used by the offline branch
of `register_for_event`.  Words are naturals kept below `2 ^ 32`; the
implementation follows FIPS 180-4 and matches the standard test vectors
(see the theorems at the end of the file). -/

/-- The 32-bit word modulus. -/
def M32 : Nat := 4294967296

/-- Right rotation of a 32-bit word (inputs are maintained below `2 ^ 32`). -/
def rotr32 (n x : Nat) : Nat := (x >>> n) ||| ((x <<< (32 - n)) % M32)

/-- Bitwise complement of a 32-bit word. -/
def compl32 (x : Nat) : Nat := 4294967295 ^^^ x

/-- The SHA-256 choice function. -/
def sha_ch (e f g : Nat) : Nat :=
  let p := e &&& f
  let q := compl32 e &&& g
  p ^^^ q

/-- The SHA-256 majority function. -/
def sha_maj (a b c : Nat) : Nat :=
  let p := a &&& b
  let q := a &&& c
  let r := b &&& c
  p ^^^ q ^^^ r

/-- The SHA-256 big sigma-0 function. -/
def sha_bsig0 (a : Nat) : Nat := rotr32 2 a ^^^ rotr32 13 a ^^^ rotr32 22 a

/-- The SHA-256 big sigma-1 function. -/
def sha_bsig1 (e : Nat) : Nat := rotr32 6 e ^^^ rotr32 11 e ^^^ rotr32 25 e

/-- The SHA-256 small sigma-0 function. -/
def sha_ssig0 (w : Nat) : Nat := rotr32 7 w ^^^ rotr32 18 w ^^^ (w >>> 3)

/-- The SHA-256 small sigma-1 function. -/
def sha_ssig1 (w : Nat) : Nat := rotr32 17 w ^^^ rotr32 19 w ^^^ (w >>> 10)

/-- The SHA-256 round constants. -/
def sha_K : List Nat :=
  [1116352408, 1899447441, 3049323471, 3921009573, 961987163,
   1508970993, 2453635748, 2870763221, 3624381080, 310598401,
   607225278, 1426881987, 1925078388, 2162078206, 2614888103,
   3248222580, 3835390401, 4022224774, 264347078, 604807628,
   770255983, 1249150122, 1555081692, 1996064986, 2554220882,
   2821834349, 2952996808, 3210313671, 3336571891, 3584528711,
   113926993, 338241895, 666307205, 773529912, 1294757372,
   1396182291, 1695183700, 1986661051, 2177026350, 2456956037,
   2730485921, 2820302411, 3259730800, 3345764771, 3516065817,
   3600352804, 4094571909, 275423344, 430227734, 506948616,
   659060556, 883997877, 958139571, 1322822218, 1537002063,
   1747873779, 1955562222, 2024104815, 2227730452, 2361852424,
   2428436474, 2756734187, 3204031479, 3329325298]

/-- The SHA-256 initial hash state. -/
def sha_H0 : List Nat :=
  [1779033703, 3144134277, 1013904242, 2773480762,
   1359893119, 2600822924, 528734635, 1541459225]

/-- The big-endian 64-bit length trailer of the padding. -/
def len64_be (n : Nat) : List Nat :=
  (List.range 8).map (fun i => (n >>> (8 * (7 - i))) % 256)

/-- SHA-256 padding: a 0x80 byte, zeros to 56 mod 64, then the bit length;
the result's length is always a multiple of 64. -/
def pad_bytes (msg : List Nat) : List Nat :=
  msg ++ [128] ++ List.replicate ((119 - msg.length % 64) % 64) 0 ++
    len64_be (8 * msg.length)

/-- The sixteen big-endian 32-bit words of one 64-byte block. -/
def block_words (block : List Nat) : List Nat :=
  (List.range 16).map (fun i =>
    ((block.getD (4 * i) 0) <<< 24) ||| ((block.getD (4 * i + 1) 0) <<< 16) |||
    ((block.getD (4 * i + 2) 0) <<< 8) ||| (block.getD (4 * i + 3) 0))

/-- One extension step of the message schedule. -/
def schedule_step (acc : List Nat) : List Nat :=
  let n := acc.length
  acc ++ [(acc.getD (n - 16) 0 + sha_ssig0 (acc.getD (n - 15) 0) +
           acc.getD (n - 7) 0 + sha_ssig1 (acc.getD (n - 2) 0)) % M32]

/-- The 64-word message schedule of one block. -/
def msg_schedule (ws : List Nat) : List Nat :=
  (List.range 48).foldl (fun a _ => schedule_step a) ws

/-- One SHA-256 compression round on the eight-word working state. -/
def round_step (st : List Nat) (kw : Nat × Nat) : List Nat :=
  let t1 := (st.getD 7 0 + sha_bsig1 (st.getD 4 0) +
             sha_ch (st.getD 4 0) (st.getD 5 0) (st.getD 6 0) + kw.1 + kw.2) % M32
  let t2 := (sha_bsig0 (st.getD 0 0) +
             sha_maj (st.getD 0 0) (st.getD 1 0) (st.getD 2 0)) % M32
  [(t1 + t2) % M32, st.getD 0 0, st.getD 1 0, st.getD 2 0,
   (st.getD 3 0 + t1) % M32, st.getD 4 0, st.getD 5 0, st.getD 6 0]

/-- Compression of one 64-byte block into the eight-word hash state. -/
def sha_compress (h : List Nat) (block : List Nat) : List Nat :=
  let final := (sha_K.zip (msg_schedule (block_words block))).foldl round_step h
  (h.zip final).map (fun p => (p.1 + p.2) % M32)

/-- The consecutive 64-byte blocks of a byte list whose length is a multiple
of 64 (as the padded message always is). -/
def chunks64 (l : List Nat) : List (List Nat) :=
  (List.range (l.length / 64)).map (fun i => (l.drop (64 * i)).take 64)

/-- The SHA-256 digest of a byte list, as eight 32-bit words. -/
def sha256_words (msg : List Nat) : List Nat :=
  (chunks64 (pad_bytes msg)).foldl sha_compress sha_H0

/-- The sixteen lowercase hex digits. -/
def hex_digits : List Char := "0123456789abcdef".data

/-- The lowercase hex digit of a nibble. -/
def hex_digit (n : Nat) : Char := hex_digits.getD n '0'

/-- The eight lowercase hex characters of one 32-bit word, high nibble
first. -/
def word_to_hex (w : Nat) : List Char :=
  (List.range 8).map (fun i => hex_digit ((w >>> (4 * (7 - i))) % 16))

/-- `hashlib.sha256(msg).hexdigest()`: 64 lowercase hex characters. -/
def sha256_hexdigest (msg : List Nat) : String :=
  String.mk ((sha256_words msg).map word_to_hex).flatten

/-- The UTF-8 bytes of one character. -/
def char_utf8 (c : Char) : List Nat :=
  let n := c.toNat
  if n < 128 then [n]
  else if n < 2048 then [192 ||| (n >>> 6), 128 ||| (n &&& 63)]
  else if n < 65536 then
    [224 ||| (n >>> 12), 128 ||| ((n >>> 6) &&& 63), 128 ||| (n &&& 63)]
  else
    [240 ||| (n >>> 18), 128 ||| ((n >>> 12) &&& 63),
     128 ||| ((n >>> 6) &&& 63), 128 ||| (n &&& 63)]

/-- The UTF-8 bytes of a string (Python `str.encode()`). -/
def str_bytes (s : String) : List Nat := (s.data.map char_utf8).flatten

/-- The f-string of `register_for_event` line 394: the event id, the wallet
address and the printed current time, concatenated.  `time_str` stands for
the text Python interpolates for `time.time()`. -/
def dummy_data (event_id : Nat) (wallet_address time_str : String) : String :=
  toString event_id ++ wallet_address ++ time_str

/-- The dummy transaction hash of `register_for_event` lines 392-396:
`0x` followed by the first 64 characters of the hex digest (which is all of
them, the digest being 64 characters long). -/
def dummy_tx_hash (event_id : Nat) (wallet_address time_str : String) : String :=
  "0x" ++ String.mk
    ((sha256_hexdigest (str_bytes (dummy_data event_id wallet_address time_str))).data.take 64)

/-- `self.w3.to_wei(eth, 'ether')`: multiplication by 10^18, in ℚ. -/
def to_wei (eth : ℚ) : ℚ := eth * (10 ^ 18 : ℚ)

/-- Outcomes of the external interactions of `register_for_event`: the
`is_connected` probe of line 390 and the printed value of `time.time()`
interpolated at line 394. -/
structure RegisterWorld where
  probe : PyResult Bool
  time_str : String

/-- `BlockchainService.register_for_event` (lines 386-411), with its effect
trace: when the Connection is not live, unit conversion and contract
selection are skipped entirely and the hash-derived dummy transaction hash
is returned with no effects; otherwise the price is converted to wei and the
call is routed through `send_transaction` to `EventContract.registerForEvent`
(failures are logged and re-raised). -/
def register_for_event (st : ServiceState) (rw : RegisterWorld) (sw : SendWorld)
    (event_id : Nat) (wallet_address : String) (ticket_price : ℚ)
    (_organizer_address : String) : PyResult String × List NetEffect :=
  if !(is_connected st rw.probe) then
    (.ok (dummy_tx_hash event_id wallet_address rw.time_str), [])
  else
    let _ticket_price_wei := to_wei ticket_price
    send_transaction st sw "EventContract" "registerForEvent" Option.none

/-- One invocation of a `BlockchainService` method after construction,
together with the world outcomes it consumes.  These are the methods embedded
in this development; none of the remaining methods of `blockchain.py`
(`create_event` … `get_user_nfts`, lines 329-592) assigns to `self.contracts`,
`self.w3`, `self.account`, `self.chain_id` or `self.current_network` either. -/
inductive Op where
  | op_get_contract (name : String)
  | op_is_connected (probe : PyResult Bool)
  | op_get_account_balance (w : BalanceWorld) (address : String)
  | op_estimate_gas (outcome : PyResult Nat)
  | op_send_transaction (w : SendWorld) (cn fn : String) (gas_override : Option Nat)
  | op_call_function (outcome : PyResult PyVal) (cn fn : String)
  | op_wait_for_transaction (w : WaitWorld) (tx : String) (timeout : Nat)
  | op_register_for_event (rw : RegisterWorld) (sw : SendWorld) (eid : Nat)
      (wallet : String) (price : ℚ) (organizer : String)
  | op_get_explorer_url (addr : String) (tid : Option Nat)
  | op_get_transaction_explorer_url (tx : String)

/-- The value returned by one method invocation. -/
inductive StepOut where
  | contract (r : PyResult ContractHandle)
  | flag (b : Bool)
  | rat (q : ℚ)
  | nat (n : Nat)
  | tx (r : PyResult String) (effs : List NetEffect)
  | val (r : PyResult PyVal)
  | receipt (r : PyResult PyDict) (effs : List NetEffect)
  | url (u : Option String)

/-- Executing one post-construction method call: the resulting service state
and the returned value.  Each branch is the faithful translation of the
corresponding method body, none of which contains an assignment to a field of
`self`, so the state component is the input state in every branch. -/
def step (st : ServiceState) (op : Op) : ServiceState × StepOut :=
  match op with
  | .op_get_contract name => (st, .contract (get_contract st name))
  | .op_is_connected probe => (st, .flag (is_connected st probe))
  | .op_get_account_balance w a => (st, .rat (get_account_balance st w a))
  | .op_estimate_gas outcome => (st, .nat (estimate_gas outcome))
  | .op_send_transaction w cn fn g =>
    let r := send_transaction st w cn fn g
    (st, .tx r.1 r.2)
  | .op_call_function outcome cn fn => (st, .val (call_function st outcome cn fn))
  | .op_wait_for_transaction w tx t =>
    let r := wait_for_transaction st w tx t
    (st, .receipt r.1 r.2)
  | .op_register_for_event rw sw eid wallet price org =>
    let r := register_for_event st rw sw eid wallet price org
    (st, .tx r.1 r.2)
  | .op_get_explorer_url addr tid =>
    (st, .url (get_explorer_url st.current_network addr tid))
  | .op_get_transaction_explorer_url tx =>
    (st, .url (get_transaction_explorer_url st.current_network tx))

/-- The method and attribute names defined on `BlockchainService`
(`blockchain.py` lines 10-615: the class body).  `getattr` on any name
outside this list raises `AttributeError` (the class defines no dynamic
attribute hook). -/
def blockchain_service_methods : List String :=
  ["NETWORKS", "w3", "contracts", "account", "chain_id", "current_network",
   "_initialize_web3", "_load_contracts", "get_contract", "is_connected",
   "get_account_balance", "estimate_gas", "send_transaction", "call_function",
   "wait_for_transaction", "create_event", "get_event", "process_payment",
   "register_for_event", "mint_ticket", "transfer_ticket", "get_nft_metadata",
   "get_nft_transaction_history", "get_user_nfts", "_load_contract",
   "_get_explorer_url", "_get_transaction_explorer_url"]

/-- A row of the relational `Ticket` table (`models.py`), restricted to the
fields `to_blockchain_format` reads. -/
structure DbTicket where
  token_id : Nat
  event_id : Nat
  wallet_address : String
  purchase_ts : Int
  is_used : Bool
  is_active : Bool
  seat_info : Option String
  ticket_type : Option String
deriving DecidableEq, Repr

/-- An optional string column rendered as a Python value. -/
def optStr : Option String → PyVal
  | Option.none => .none
  | some s => .str s

/-- `Ticket.to_blockchain_format` (`models.py` lines 249-261). -/
def to_blockchain_format (t : DbTicket) : PyDict :=
  [("token_id", .int t.token_id),
   ("event_id", .int t.event_id),
   ("event_contract", .str "0x5FbDB2315678afecb367f032d93F642f64180aa3"),
   ("purchaser", .str t.wallet_address),
   ("purchase_date", .int t.purchase_ts),
   ("is_used", .bool t.is_used),
   ("is_active", .bool t.is_active),
   ("seat_info", optStr t.seat_info),
   ("ticket_type", optStr t.ticket_type)]

/-- Outcomes of the external interactions of the `get_user_tickets` endpoint:
the `Ticket.query` of the try block (line 183-190), the `is_connected` probe
of line 195, and the `Ticket.query` of the exception handler (lines 211-216). -/
structure TicketsWorld where
  db_try : PyResult (List DbTicket)
  probe : PyResult Bool
  db_fallback : PyResult (List DbTicket)

/-- The JSON response of the endpoint, restricted to the observed fields:
HTTP status, the tickets payload, whether `offline_mode` is set in the body,
and the optional `message`/`error` entries. -/
structure HttpResponse where
  status : Nat
  tickets : List PyDict
  offline_mode : Bool
  message : Option String
  error : Option String
deriving DecidableEq, Repr

/-- The exception handler of `get_user_tickets` (`blockchain_api.py` lines
206-232): re-queries the `Ticket` table and returns the formatted rows with
`offline_mode` set; if even that query fails, returns an empty list, the
original error string and `offline_mode`, still with status 200. -/
def get_user_tickets_handler (e : PyErr) (w : TicketsWorld) : HttpResponse :=
  match w.db_fallback with
  | .ok rows =>
    { status := 200, tickets := rows.map to_blockchain_format,
      offline_mode := true,
      message := some "Using offline data due to blockchain connection issues",
      error := Option.none }
  | .error _ =>
    { status := 200, tickets := [], offline_mode := true,
      message := Option.none, error := some e.message }

/-- The `get_user_tickets` endpoint (`blockchain_api.py` lines 176-232).
Its first statement calls `blockchain_service.get_tickets_by_owner(address)`;
attribute lookup on the service object consults the class body, so a name
outside `blockchain_service_methods` raises `AttributeError` and control
moves to the handler.  The remainder of the try block is translated for
faithfulness although it is reachable only if the attribute existed. -/
def get_user_tickets (st : ServiceState) (w : TicketsWorld)
    (_address : String) : HttpResponse :=
  let first_call : PyResult (List PyDict) :=
    if "get_tickets_by_owner" ∈ blockchain_service_methods then .ok []
    else .error (.attributeError
      "BlockchainService object has no attribute get_tickets_by_owner")
  match first_call with
  | .error e => get_user_tickets_handler e w
  | .ok blockchain_tickets =>
    match w.db_try with
    | .error e => get_user_tickets_handler e w
    | .ok rows =>
      let db_tickets_formatted := rows.map to_blockchain_format
      if !(is_connected st w.probe) then
        { status := 200, tickets := db_tickets_formatted, offline_mode := true,
          message := some "Blockchain not connected - showing offline data",
          error := Option.none }
      else
        { status := 200,
          tickets := if blockchain_tickets ≠ [] then blockchain_tickets
                     else db_tickets_formatted,
          offline_mode := false, message := Option.none, error := Option.none }

/-! Concrete fixtures used by witnesses and counterexamples. -/

/-- A service state as produced by a failed startup: no client, no contracts,
no signer (the offline/degraded mode of the source). -/
def st_offline : ServiceState :=
  { w3 := false, contracts := [], account := Option.none,
    chain_id := Option.none, current_network := some "localhost" }

/-- A service state whose client object exists (liveness still depends on the
per-call probe outcome). -/
def st_live : ServiceState :=
  { w3 := true, contracts := [], account := Option.none,
    chain_id := some 1337, current_network := some "localhost" }

/-- A wait world for a disconnected service: both probes report false. -/
def w_wait_offline : WaitWorld :=
  { probe_try := .ok false, receipt := .error .timeout, probe_handler := .ok false }

/-- A wait world in which the connection is live throughout and the receipt
poll fails with a simple timeout. -/
def w_wait_timeout_live : WaitWorld :=
  { probe_try := .ok true, receipt := .error .timeout, probe_handler := .ok true }

/-- A wait world in which the connection is live at entry, the poll times
out, and the connection is down by the time the handler re-probes. -/
def w_wait_timeout_drop : WaitWorld :=
  { probe_try := .ok true, receipt := .error .timeout, probe_handler := .ok false }

/-- A send world in which every external call would succeed. -/
def w_send_ok : SendWorld :=
  { gas_price := .ok 1000000000, nonce := .ok 0, build := .ok (),
    estimate := .ok 21000, sign := .ok (), send_raw := .ok "0xfeed" }

/-- Fixture: an environment in which only the PaymentProcessor and TicketNFT
addresses are configured (the EventContract address variable is unset). -/
def env_no_event_addr : Env :=
  { getenv := fun k =>
      if k = "PAYMENTPROCESSOR_ADDRESS" then some "0xPP"
      else if k = "TICKETNFT_ADDRESS" then some "0xTN"
      else Option.none }

/-- Fixture: a handle standing for a successfully constructed contract. -/
def sample_handle : ContractHandle :=
  { address := "0xPP", abi := ["abi"], functions := ["testProcessPayment"] }

/-- Fixture: a load world with all artifacts present, every construction
succeeding, and a live probe. -/
def lw_all_ok : LoadWorld :=
  { probe := .ok true,
    artifact := fun _ => .ok ["abi"],
    create := fun _ _ => .ok sample_handle }

/-- Fixture: an empty process environment (every variable unset). -/
def env_empty : Env := { getenv := fun _ => Option.none }

/-- Fixture: a startup world whose liveness probe fails (no node listening
on the default local endpoint). -/
def iw_probe_fails : InitWorld :=
  { client_version := .error (.other "connection refused"),
    eth_chain_id := .error (.other "connection refused"),
    from_key := .error (.other "no key") }

/-- Fixture: a load world whose probe reports not connected. -/
def lw_offline : LoadWorld :=
  { probe := .ok false,
    artifact := fun _ => .error (.fileNotFound "artifacts"),
    create := fun _ _ => .error (.other "offline") }

/-- Fixture: a balance world whose balance fetch fails. -/
def bw_fails : BalanceWorld :=
  { to_checksum := .ok "0xA", get_balance := .error (.other "offline") }

/-- Fixture: a sample row of the relational Ticket table. -/
def sample_ticket : DbTicket :=
  { token_id := 1, event_id := 2, wallet_address := "0xW",
    purchase_ts := 1700000000, is_used := false, is_active := true,
    seat_info := Option.none, ticket_type := some "General" }

/-- Fixture: a tickets world whose fallback database query returns one row
(the liveness probe value is irrelevant: the endpoint faults before it). -/
def tw_db_ok : TicketsWorld :=
  { db_try := .ok [], probe := .ok true, db_fallback := .ok [sample_ticket] }

/-! Reduction lemmas for `Except` used throughout the proofs. -/

/-- Bind on a successful `Except` computation applies the continuation. -/
theorem except_bind_ok {α β ε : Type} (a : α) (f : α → Except ε β) :
    (Except.ok a >>= f : Except ε β) = f a := rfl

/-- Bind on a raised `Except` computation propagates the exception. -/
theorem except_bind_error {α β ε : Type} (e : ε) (f : α → Except ε β) :
    (Except.error e >>= f : Except ε β) = Except.error e := rfl

/-- Map over a successful `Except` computation applies the function. -/
theorem except_map_ok {α β ε : Type} (a : α) (f : α → β) :
    (f <$> (Except.ok a : Except ε α)) = Except.ok (f a) := rfl

/-- Map over a raised `Except` computation propagates the exception. -/
theorem except_map_error {α β ε : Type} (e : ε) (f : α → β) :
    (f <$> (Except.error e : Except ε α)) = Except.error e := rfl

/-! Claim theorems. -/

/-- C1: on a Connection that is not live, `wait_for_transaction` returns,
for every transaction hash and timeout, the synthesized success receipt —
status 1, blockNumber 1, gasUsed 21000, zero from/to addresses, the input
hash echoed — without performing any receipt polling. -/
theorem c1_offline_wait_returns_dummy_success (st : ServiceState) (w : WaitWorld)
    (tx : String) (t : Nat) (h : is_connected st w.probe_try = false) :
    wait_for_transaction st w tx t = (.ok (dummy_success_receipt tx), []) ∧
    dict_get (dummy_success_receipt tx) "status" = some (.int 1) ∧
    dict_get (dummy_success_receipt tx) "blockNumber" = some (.int 1) ∧
    dict_get (dummy_success_receipt tx) "gasUsed" = some (.int 21000) ∧
    dict_get (dummy_success_receipt tx) "from" = some (.str zero_address) ∧
    dict_get (dummy_success_receipt tx) "to" = some (.str zero_address) ∧
    dict_get (dummy_success_receipt tx) "transactionHash" = some (.str tx) := by
  refine ⟨?_, rfl, rfl, rfl, rfl, rfl, rfl⟩
  simp [wait_for_transaction, h]

/-- C1 witness: the offline fixture satisfies the hypothesis and receives the
dummy success receipt with no polling effect. -/
theorem c1_witness :
    is_connected st_offline w_wait_offline.probe_try = false ∧
    wait_for_transaction st_offline w_wait_offline "0xabc" 120 =
      (.ok (dummy_success_receipt "0xabc"), []) :=
  ⟨rfl, (c1_offline_wait_returns_dummy_success st_offline w_wait_offline "0xabc" 120 rfl).1⟩

/-- C2 counterexample: with the connection live at entry and still live in
the exception handler, a receipt lookup that fails with a simple timeout is
re-raised — the call yields the raised exception and not the synthesized
failed receipt, contradicting the claim that a simple timeout on a live
Connection returns a failed receipt. -/
theorem c2_counterexample :
    (wait_for_transaction st_live w_wait_timeout_live "0xabc" 120).1 =
      .error PyErr.timeout ∧
    (wait_for_transaction st_live w_wait_timeout_live "0xabc" 120).1 ≠
      .ok (dummy_failed_receipt "0xabc" PyErr.timeout) := by
  refine ⟨rfl, ?_⟩
  intro h
  exact Except.noConfusion h

/-- C2 (amended): when the receipt lookup fails on a Connection that was live
at entry, the synthesized failed receipt is returned exactly when
`is_connected()` is false at the moment the exception is handled; if the
Connection is still live there, the exception — of any kind, a simple
timeout included — is re-raised.  The error's type is never examined. -/
theorem c2_amended_failed_receipt_iff_offline_at_handler
    (st : ServiceState) (w : WaitWorld) (tx : String) (t : Nat) (e : PyErr)
    (hlive : is_connected st w.probe_try = true)
    (herr : w.receipt = .error e) :
    (is_connected st w.probe_handler = false →
      wait_for_transaction st w tx t =
        (.ok (dummy_failed_receipt tx e), [.poll_receipt])) ∧
    (is_connected st w.probe_handler = true →
      wait_for_transaction st w tx t = (.error e, [.poll_receipt])) := by
  constructor <;> intro h <;> simp [wait_for_transaction, hlive, herr, h]

/-- C2 witness: live at entry, timeout during the poll, connection down by
the time the handler re-probes — the dummy failed receipt is returned. -/
theorem c2_witness :
    is_connected st_live w_wait_timeout_drop.probe_try = true ∧
    w_wait_timeout_drop.receipt = .error PyErr.timeout ∧
    is_connected st_live w_wait_timeout_drop.probe_handler = false ∧
    wait_for_transaction st_live w_wait_timeout_drop "0xabc" 120 =
      (.ok (dummy_failed_receipt "0xabc" PyErr.timeout), [.poll_receipt]) :=
  ⟨rfl, rfl, rfl,
    (c2_amended_failed_receipt_iff_offline_at_handler st_live w_wait_timeout_drop
      "0xabc" 120 PyErr.timeout rfl rfl).1 rfl⟩

/-- C4: with no configured signing account, `send_transaction` fails with the
no-signer error for every contract name, function name and gas override, and
the effect trace is empty: no gas-price fetch, no nonce fetch, no transaction
build, no gas estimation, no signing and no raw-transaction submission
happens before the error is raised. -/
theorem c4_send_without_signer_fails_early (st : ServiceState) (w : SendWorld)
    (contract_name function_name : String) (gas_override : Option Nat)
    (h : st.account = Option.none) :
    send_transaction st w contract_name function_name gas_override =
      (.error (.exception "No private key configured for transaction signing"), []) := by
  simp [send_transaction, h]

/-- C4 witness: the offline fixture has no signer, and a send of
`EventContract.createEvent` fails with the no-signer error and no effects. -/
theorem c4_witness :
    st_offline.account = Option.none ∧
    send_transaction st_offline w_send_ok "EventContract" "createEvent" Option.none =
      (.error (.exception "No private key configured for transaction signing"), []) :=
  ⟨rfl, c4_send_without_signer_fails_early st_offline w_send_ok
    "EventContract" "createEvent" Option.none rfl⟩

/-- C9: `is_connected` is total and never raises: the embedded body always
yields an `ok` boolean; a missing RPC client gives false; any exception from
the liveness probe is converted to false; and the returned-value view
`is_connected` agrees with the raising-aware view `is_connected_impl`, so
chain unreachability is observable only as a false return. -/
theorem c9_is_connected_total_never_raises (st : ServiceState) (probe : PyResult Bool) :
    (∃ b, is_connected_impl st probe = .ok b) ∧
    (st.w3 = false → is_connected_impl st probe = .ok false) ∧
    (∀ e, probe = .error e → is_connected_impl st probe = .ok false) ∧
    is_connected_impl st probe = .ok (is_connected st probe) := by
  cases hw : st.w3 <;> cases probe <;>
    simp [is_connected_impl, is_connected, hw]

/-- C9 witness: a present client whose probe raises still yields `ok false`. -/
theorem c9_witness :
    st_live.w3 = true ∧
    is_connected_impl st_live (.error (PyErr.other "connection refused")) = .ok false :=
  ⟨rfl, (c9_is_connected_total_never_raises st_live
    (.error (PyErr.other "connection refused"))).2.2.1
    (PyErr.other "connection refused") rfl⟩

/-- C5: contract loading is per-contract independent: on a live connection,
each configured name is mapped exactly to its own `load_one` result — so a
contract whose address variable is unset or whose artifact is missing is
skipped (its own entry is absent) without blocking any other contract — and
`get_contract` on an absent name fails with the "not loaded" `ValueError`
instead of crashing. -/
theorem c5_partial_load_and_not_loaded_error (st : ServiceState) (env : Env)
    (lw : LoadWorld) (hst : st.contracts = [])
    (hlive : is_connected st lw.probe = true) :
    (∀ n, (n = "EventContract" ∨ n = "PaymentProcessor" ∨ n = "TicketNFT") →
      dict_get (load_contracts st env lw).contracts n = load_one env lw n) ∧
    (∀ n, (¬ truthy (env.getenv (str_upper n ++ "_ADDRESS")) ∨
            ∃ e, lw.artifact n = .error e) →
      load_one env lw n = Option.none) ∧
    (∀ (stx : ServiceState) (name : String),
      dict_get stx.contracts name = Option.none →
      get_contract stx name =
        .error (.valueError ("Contract " ++ name ++ " not loaded"))) := by
  refine ⟨?_, ?_, ?_⟩
  · intro n hn
    rcases hn with h | h | h <;> subst h <;>
      rcases h1 : load_one env lw "EventContract" with _ | cEv <;>
      rcases h2 : load_one env lw "PaymentProcessor" with _ | cPay <;>
      rcases h3 : load_one env lw "TicketNFT" with _ | cTk <;>
      simp [load_contracts, hlive, contract_configs, hst, h1, h2, h3, dict_get]
  · intro n hn
    rcases hn with h | ⟨e, he⟩
    · unfold load_one
      cases ha : lw.artifact n
      · rfl
      · simp [h]
    · simp [load_one, he]
  · intro stx name h
    simp [get_contract, h]

/-- C5 witness: with the EventContract address unset, loading on a live
connection still maps PaymentProcessor (and skips EventContract), and
`get_contract` for the absent EventContract fails with the not-loaded error. -/
theorem c5_witness :
    st_live.contracts = [] ∧
    is_connected st_live lw_all_ok.probe = true ∧
    ¬ truthy (env_no_event_addr.getenv (str_upper "EventContract" ++ "_ADDRESS")) ∧
    load_one env_no_event_addr lw_all_ok "EventContract" = Option.none ∧
    dict_get (load_contracts st_live env_no_event_addr lw_all_ok).contracts
      "PaymentProcessor" = load_one env_no_event_addr lw_all_ok "PaymentProcessor" ∧
    load_one env_no_event_addr lw_all_ok "PaymentProcessor" = some sample_handle ∧
    get_contract st_offline "EventContract" =
      .error (.valueError ("Contract " ++ "EventContract" ++ " not loaded")) := by
  have h := c5_partial_load_and_not_loaded_error st_live env_no_event_addr lw_all_ok rfl rfl
  refine ⟨rfl, rfl, by decide, ?_, ?_, by decide, ?_⟩
  · exact h.2.1 "EventContract" (Or.inl (by decide))
  · exact h.1 "PaymentProcessor" (Or.inr (Or.inl rfl))
  · exact h.2.2 st_offline "EventContract" rfl

/-- Every explorer URL recorded in the static network table is a non-empty
string, so Python truthiness of a present entry never fails. -/
theorem networks_no_empty_explorer (k : String) (cfg : NetworkConfig)
    (hq : dict_get NETWORKS k = some cfg) : cfg.block_explorer ≠ some "" := by
  simp only [NETWORKS, dict_get] at hq
  split_ifs at hq <;> cases hq <;> decide

/-- C6: for every active network name (known or unknown, set or unset),
`_get_explorer_url` returns the `None` sentinel exactly when the profile's
explorer base is unset, and otherwise returns the URL built by pure string
construction from the base, the contract address and the optional token id. -/
theorem c6_explorer_url_none_iff_base_unset (net : Option String)
    (addr : String) (tid : Option Nat) :
    (get_explorer_url net addr tid = Option.none ↔
      explorer_base net = Option.none) ∧
    (∀ s, explorer_base net = some s →
      get_explorer_url net addr tid =
        some (match tid with
              | some t => s ++ "/token/" ++ addr ++ "?a=" ++ toString t
              | Option.none => s ++ "/address/" ++ addr)) := by
  rcases net with _ | n
  · exact ⟨by simp [get_explorer_url, explorer_base],
      fun s hs => absurd hs (by simp [explorer_base])⟩
  · rcases hq : dict_get NETWORKS n with _ | cfg
    · refine ⟨by simp [get_explorer_url, explorer_base, hq], fun s hs => ?_⟩
      simp [explorer_base, hq] at hs
    · rcases hbe : cfg.block_explorer with _ | s
      · refine ⟨by simp [get_explorer_url, explorer_base, hq, hbe], fun s hs => ?_⟩
        simp [explorer_base, hq, hbe] at hs
      · have hs : s ≠ "" := by
          intro h0
          exact networks_no_empty_explorer n cfg hq (h0 ▸ hbe)
        constructor
        · rcases tid with _ | t <;>
            simp [get_explorer_url, explorer_base, hq, hbe, hs]
        · intro s2 hs2
          have : s = s2 := by
            simpa [explorer_base, hq, hbe] using hs2
          subst this
          rcases tid with _ | t <;> simp [get_explorer_url, hq, hbe, hs]

/-- C6 witness: mainnet has an explorer base and gets a constructed token
URL; the local network has none and gets the sentinel. -/
theorem c6_witness :
    explorer_base (some "mainnet") = some "https://etherscan.io" ∧
    get_explorer_url (some "mainnet") "0xA" (some 7) =
      some ("https://etherscan.io" ++ "/token/" ++ "0xA" ++ "?a=" ++ toString 7) ∧
    explorer_base (some "localhost") = Option.none ∧
    get_explorer_url (some "localhost") "0xA" Option.none = Option.none :=
  ⟨rfl,
    (c6_explorer_url_none_iff_base_unset (some "mainnet") "0xA" (some 7)).2
      "https://etherscan.io" rfl,
    rfl,
    (c6_explorer_url_none_iff_base_unset (some "localhost") "0xA" Option.none).1.mpr rfl⟩

/-- C7: with no private key, no RPC override and the default local profile,
a failed liveness probe leaves the service disconnected: `is_connected`
reports `ok false` and `get_account_balance` returns 0 instead of raising;
more generally the balance is 0 whenever the client is absent, the checksum
conversion fails, or the balance fetch fails. -/
theorem c7_disconnected_balance_zero :
    (∀ (env : Env) (iw : InitWorld) (lw : LoadWorld) (probe : PyResult Bool)
       (w : BalanceWorld) (addr : String),
      env.getenv "BLOCKCHAIN_RPC_URL" = Option.none →
      env.getenv "BLOCKCHAIN_NETWORK" = Option.none →
      env.getenv "BLOCKCHAIN_PRIVATE_KEY" = Option.none →
      (∃ e, iw.client_version = .error e) →
      is_connected_impl (service_init env iw lw) probe = .ok false ∧
      get_account_balance (service_init env iw lw) w addr = 0) ∧
    (∀ (st : ServiceState) (w : BalanceWorld) (addr : String),
      st.w3 = false → get_account_balance st w addr = 0) ∧
    (∀ (st : ServiceState) (w : BalanceWorld) (addr : String) (e : PyErr),
      w.to_checksum = .error e → get_account_balance st w addr = 0) ∧
    (∀ (st : ServiceState) (w : BalanceWorld) (addr : String) (e : PyErr),
      w.get_balance = .error e → get_account_balance st w addr = 0) := by
  refine ⟨?_, ?_, ?_, ?_⟩
  · intro env iw lw probe w addr h1 h2 h3 hcv
    obtain ⟨e, he⟩ := hcv
    have hw3 : (service_init env iw lw).w3 = false := by
      cases hik : env.getenv "INFURA_PROJECT_ID" <;>
        simp [service_init, initialize_web3, load_contracts, is_connected,
          h1, h2, h3, he, hik, truthy]
    exact ⟨by simp [is_connected_impl, hw3],
      by simp [get_account_balance, hw3]⟩
  · intro st w addr h
    simp [get_account_balance, h]
  · intro st w addr e h
    cases hw : st.w3 <;>
      simp [get_account_balance, hw, h, except_bind_error]
  · intro st w addr e h
    cases hw : st.w3 <;> cases hc : w.to_checksum <;>
      simp [get_account_balance, hw, hc, h, except_bind_error, except_bind_ok,
        except_map_error]

/-- C7 witness: the all-unset environment with a refused probe yields
`ok false` connectivity and a zero balance. -/
theorem c7_witness :
    env_empty.getenv "BLOCKCHAIN_RPC_URL" = Option.none ∧
    env_empty.getenv "BLOCKCHAIN_NETWORK" = Option.none ∧
    env_empty.getenv "BLOCKCHAIN_PRIVATE_KEY" = Option.none ∧
    iw_probe_fails.client_version = .error (.other "connection refused") ∧
    is_connected_impl (service_init env_empty iw_probe_fails lw_offline) (.ok false) =
      .ok false ∧
    get_account_balance (service_init env_empty iw_probe_fails lw_offline)
      bw_fails "0xA" = 0 := by
  have h := c7_disconnected_balance_zero.1 env_empty iw_probe_fails lw_offline
    (.ok false) bw_fails "0xA" rfl rfl rfl ⟨.other "connection refused", rfl⟩
  exact ⟨rfl, rfl, rfl, rfl, h.1, h.2⟩

/-- `_initialize_web3` always leaves the contract mapping empty: contracts
are only ever inserted by `_load_contracts`. -/
theorem initialize_web3_contracts_nil (env : Env) (iw : InitWorld) :
    (initialize_web3 env iw).contracts = [] := by
  simp only [initialize_web3]
  cases h : truthy (env.getenv "BLOCKCHAIN_RPC_URL") <;>
    simp only [h, Bool.false_eq_true, if_false, if_true, ite_true, ite_false] <;>
    repeat' split
  all_goals rfl

/-- C8: contract handles exist only when the connection was live at load
time — `_initialize_web3` leaves the mapping empty, `_load_contracts` keeps
it empty when `is_connected()` is false at initialization, a non-empty
mapping certifies liveness at load time — and no embedded post-construction
operation changes the service state, so nothing ever adds entries (or
retries loading) after `__init__`. -/
theorem c8_contracts_require_liveness_and_are_write_once :
    (∀ (env : Env) (iw : InitWorld), (initialize_web3 env iw).contracts = []) ∧
    (∀ (env : Env) (iw : InitWorld) (lw : LoadWorld),
      is_connected (initialize_web3 env iw) lw.probe = false →
      (service_init env iw lw).contracts = []) ∧
    (∀ (env : Env) (iw : InitWorld) (lw : LoadWorld),
      (service_init env iw lw).contracts ≠ [] →
      is_connected (initialize_web3 env iw) lw.probe = true) ∧
    (∀ (st : ServiceState) (op : Op), (step st op).1 = st) := by
  refine ⟨initialize_web3_contracts_nil, ?_, ?_, ?_⟩
  · intro env iw lw h
    simp [service_init, load_contracts, h, initialize_web3_contracts_nil]
  · intro env iw lw h
    by_contra hlive
    have hfalse : is_connected (initialize_web3 env iw) lw.probe = false := by
      cases hx : is_connected (initialize_web3 env iw) lw.probe
      · rfl
      · exact absurd hx hlive
    exact h (by simp [service_init, load_contracts, hfalse,
      initialize_web3_contracts_nil])
  · intro st op
    cases op <;> rfl

/-- C8 witness: a not-live load keeps the mapping empty, and a sample
operation (a contract lookup) leaves the state untouched. -/
theorem c8_witness :
    is_connected (initialize_web3 env_empty iw_probe_fails) lw_offline.probe = false ∧
    (service_init env_empty iw_probe_fails lw_offline).contracts = [] ∧
    (step st_live (.op_get_contract "EventContract")).1 = st_live :=
  ⟨rfl,
    c8_contracts_require_liveness_and_are_write_once.2.1 env_empty iw_probe_fails
      lw_offline rfl,
    c8_contracts_require_liveness_and_are_write_once.2.2.2 st_live
      (.op_get_contract "EventContract")⟩

/-- C10: `get_tickets_by_owner` is not a method of `BlockchainService`, so
the first statement of the `get_user_tickets` endpoint raises
`AttributeError` on every invocation; control always reaches the exception
handler, which serves the relational `Ticket` rows (or an empty list if even
the database query fails) with HTTP 200 and `offline_mode` set. -/
theorem c10_user_tickets_always_from_shadow_store (st : ServiceState)
    (w : TicketsWorld) (addr : String) :
    "get_tickets_by_owner" ∉ blockchain_service_methods ∧
    (get_user_tickets st w addr).status = 200 ∧
    (get_user_tickets st w addr).offline_mode = true ∧
    (∀ rows, w.db_fallback = .ok rows →
      (get_user_tickets st w addr).tickets = rows.map to_blockchain_format) ∧
    (∀ e, w.db_fallback = .error e →
      (get_user_tickets st w addr).tickets = []) := by
  have hmem : "get_tickets_by_owner" ∉ blockchain_service_methods := by decide
  have hcall : get_user_tickets st w addr =
      get_user_tickets_handler
        (.attributeError
          "BlockchainService object has no attribute get_tickets_by_owner") w := by
    simp [get_user_tickets, hmem]
  refine ⟨hmem, ?_, ?_, ?_, ?_⟩ <;> rw [hcall]
  · cases hdb : w.db_fallback <;> simp [get_user_tickets_handler, hdb]
  · cases hdb : w.db_fallback <;> simp [get_user_tickets_handler, hdb]
  · intro rows hdb
    simp [get_user_tickets_handler, hdb]
  · intro e hdb
    simp [get_user_tickets_handler, hdb]

/-- C10 witness: even with a live probe, the endpoint answers 200 with
`offline_mode` set and the database row formatted for the caller. -/
theorem c10_witness :
    tw_db_ok.db_fallback = .ok [sample_ticket] ∧
    (get_user_tickets st_live tw_db_ok "0xW").status = 200 ∧
    (get_user_tickets st_live tw_db_ok "0xW").offline_mode = true ∧
    (get_user_tickets st_live tw_db_ok "0xW").tickets =
      [sample_ticket].map to_blockchain_format :=
  ⟨rfl,
    (c10_user_tickets_always_from_shadow_store st_live tw_db_ok "0xW").2.1,
    (c10_user_tickets_always_from_shadow_store st_live tw_db_ok "0xW").2.2.1,
    (c10_user_tickets_always_from_shadow_store st_live tw_db_ok "0xW").2.2.2.1
      [sample_ticket] rfl⟩

/-! Development on the offline branch of `register_for_event`.  The spec's
further clause that two calls with different timestamps yield different
hashes is exactly collision-freeness of SHA-256 on this input family and is
neither proved nor refuted here; what is provable is the shape of the
returned string and that distinct timestamps produce distinct hash
pre-images. -/

/-- One compression round always returns an eight-word state. -/
theorem round_step_len (st : List Nat) (kw : Nat × Nat) :
    (round_step st kw).length = 8 := by
  simp [round_step]

/-- Folding compression rounds preserves the eight-word state shape. -/
theorem foldl_round_step_len (L : List (Nat × Nat)) (h : List Nat)
    (hh : h.length = 8) : (L.foldl round_step h).length = 8 := by
  induction L generalizing h with
  | nil => exact hh
  | cons a L ih => exact ih (round_step h a) (round_step_len h a)

/-- Block compression preserves the eight-word state shape. -/
theorem sha_compress_len (h block : List Nat) (hh : h.length = 8) :
    (sha_compress h block).length = 8 := by
  unfold sha_compress
  rw [List.length_map, List.length_zip, hh,
    foldl_round_step_len _ _ hh]
  rfl

/-- Folding block compressions preserves the eight-word state shape. -/
theorem foldl_sha_compress_len (bs : List (List Nat)) (h : List Nat)
    (hh : h.length = 8) : (bs.foldl sha_compress h).length = 8 := by
  induction bs generalizing h with
  | nil => exact hh
  | cons b bs ih => exact ih (sha_compress h b) (sha_compress_len h b hh)

/-- A SHA-256 digest consists of eight words. -/
theorem sha256_words_len (msg : List Nat) : (sha256_words msg).length = 8 :=
  foldl_sha_compress_len _ _ rfl

/-- Each digest word renders as eight hex characters. -/
theorem word_to_hex_len (w : Nat) : (word_to_hex w).length = 8 := by
  simp [word_to_hex]

/-- The rendered digest of a word list has eight characters per word. -/
theorem flatten_word_to_hex_len (ws : List Nat) :
    ((ws.map word_to_hex).flatten).length = 8 * ws.length := by
  induction ws with
  | nil => rfl
  | cons w ws ih =>
    simp only [List.map_cons, List.flatten_cons, List.length_append,
      word_to_hex_len, ih, List.length_cons]
    ring

/-- The hex digest is 64 characters long. -/
theorem sha256_hexdigest_len (msg : List Nat) :
    (sha256_hexdigest msg).data.length = 64 := by
  show ((sha256_words msg).map word_to_hex).flatten.length = 64
  rw [flatten_word_to_hex_len, sha256_words_len]

/-- Every nibble renders as one of the sixteen lowercase hex digits. -/
theorem hex_digit_mem (n : Nat) : hex_digit n ∈ hex_digits := by
  by_cases h : n < 16
  · interval_cases n <;> decide
  · have hlen : hex_digits.length ≤ n := by
      simp only [hex_digits, List.length_cons, List.length_nil]
      omega
    rw [hex_digit, List.getD_eq_default _ _ hlen]
    decide

/-- Every character of the hex digest is a lowercase hex digit. -/
theorem sha256_hexdigest_chars (msg : List Nat) :
    ∀ c ∈ (sha256_hexdigest msg).data, c ∈ hex_digits := by
  intro c hc
  have hc2 : c ∈ ((sha256_words msg).map word_to_hex).flatten := hc
  rw [List.mem_flatten] at hc2
  obtain ⟨l, hl, hcl⟩ := hc2
  rw [List.mem_map] at hl
  obtain ⟨w, _, hw⟩ := hl
  subst hw
  rw [word_to_hex, List.mem_map] at hcl
  obtain ⟨i, _, hi⟩ := hcl
  subst hi
  exact hex_digit_mem _

set_option maxRecDepth 10000 in
/-- The embedded SHA-256 matches the FIPS 180-4 test vector for the empty
message. -/
theorem sha256_empty_vector :
    sha256_hexdigest [] =
      "e3b0c44298fc1c149afbf4c8996fb92427ae41e4649b934ca495991b7852b855" := by
  decide

set_option maxRecDepth 10000 in
/-- The embedded SHA-256 matches the FIPS 180-4 test vector for "abc". -/
theorem sha256_abc_vector :
    sha256_hexdigest (str_bytes "abc") =
      "ba7816bf8f01cfea414140de5dae2223b00361a396177a9cb410ff61f20015ad" := by
  decide

/-- On a Connection that is not live, `register_for_event` performs no
network effects (no unit conversion reaches the client, no contract is
selected) and returns the dummy hash: the string is 66 characters — the
prefix `0x` followed by 64 lowercase hex characters. -/
theorem register_for_event_offline_format (st : ServiceState)
    (rw : RegisterWorld) (sw : SendWorld) (eid : Nat) (wallet : String)
    (price : ℚ) (org : String) (h : is_connected st rw.probe = false) :
    register_for_event st rw sw eid wallet price org =
      (.ok (dummy_tx_hash eid wallet rw.time_str), []) ∧
    (dummy_tx_hash eid wallet rw.time_str).data.length = 66 ∧
    (dummy_tx_hash eid wallet rw.time_str).data.take 2 = ['0', 'x'] ∧
    (∀ c ∈ (dummy_tx_hash eid wallet rw.time_str).data.drop 2, c ∈ hex_digits) := by
  have hdata : (dummy_tx_hash eid wallet rw.time_str).data =
      '0' :: 'x' ::
        (sha256_hexdigest (str_bytes (dummy_data eid wallet rw.time_str))).data.take 64 := by
    rfl
  have hlen := sha256_hexdigest_len (str_bytes (dummy_data eid wallet rw.time_str))
  refine ⟨by simp [register_for_event, h], ?_, ?_, ?_⟩
  · rw [hdata]
    simp [List.length_take, hlen]
  · rw [hdata]
    rfl
  · intro c hc
    rw [hdata] at hc
    simp only [List.drop_succ_cons, List.drop_zero] at hc
    exact sha256_hexdigest_chars _ c (List.mem_of_mem_take hc)

/-- Witness for the offline register theorem at concrete inputs. -/
theorem register_for_event_offline_format_witness :
    is_connected st_offline (Except.ok false) = false ∧
    (register_for_event st_offline
      { probe := .ok false, time_str := "1700000000.25" } w_send_ok
      7 "0xW" 1 "0xOrg").1 =
      .ok (dummy_tx_hash 7 "0xW" "1700000000.25") :=
  ⟨rfl, by
    rw [(register_for_event_offline_format st_offline
      { probe := .ok false, time_str := "1700000000.25" } w_send_ok
      7 "0xW" 1 "0xOrg" rfl).1]⟩

/-- Distinct printed timestamps give distinct hash pre-images for a fixed
event id and wallet (the hashed string determines the timestamp text). -/
theorem dummy_data_injective_in_time (eid : Nat) (wallet : String)
    (t1 t2 : String) (h : t1 ≠ t2) :
    dummy_data eid wallet t1 ≠ dummy_data eid wallet t2 := by
  intro he
  apply h
  have hd : (toString eid ++ wallet).data ++ t1.data =
      (toString eid ++ wallet).data ++ t2.data := by
    have h1 : (toString eid ++ wallet ++ t1).data =
        (toString eid ++ wallet ++ t2).data := by
      unfold dummy_data at he
      rw [he]
    simpa [String.data_append] using h1
  have hdt : t1.data = t2.data := List.append_cancel_left hd
  exact congrArg String.mk hdt

end Kairos
